import Mathlib

/-!
Verification of the battle resolution / NPC lifecycle core of the AIRPG
repository (battle_system.py, entities/character.py, entities/player.py,
entities/npc.py, items/potion.py).

The Python code is shallowly embedded: classes become structures, methods
become pure functions that return the mutated object, the random number
generator and the interactive prompts become explicit parameters (a drawn
value, a list of yes/no answers).  The source multiplies integers by
fixed decimal constants in binary floating point (`x * 0.08`, `x * 0.1`,
`x * 0.15`, ...) and then truncates with `int(...)`; this is idealized as
exact rational arithmetic: each `int(x * p/q)` becomes the truncating
integer division `pyIntDiv (x * p) q`.  All health / stat / credit
quantities are Python ints, modelled as `Int`.
-/

namespace AIRPG

/-- Python `int(a / b)` for `b > 0` on the exact rational `a / b`:
truncation toward zero, which is `Int.tdiv`.  Every use in this file has
`b > 0`, and in the battle code the numerator is non-negative, where
truncation coincides with the mathematical floor. -/
def pyIntDiv (a b : ℤ) : ℤ :=
  Int.tdiv a b

/-- From items/weapon.py: a weapon contributes `attack` additively
(only the fields the battle core reads are modelled). -/
structure Weapon where
  name : String
  attack : ℤ
  deriving Repr, DecidableEq

/-- An inventory item as the battle core sees it: a name (used by the
Phoenix Down scan in `BattleSystem.handle_phoenix_down`) and, for potions
(`items/potion.py`), the stored `heal_amount`. -/
structure Item where
  name : String
  heal_amount : ℤ
  deriving Repr, DecidableEq

/-- The combatant state shared by `entities/player.py` and
`entities/npc.py` (both extend `entities/character.py`).  Fields that
only feed console output (symbol, descriptions) or non-battle counters
(the Player `stats` dictionary, energy) are omitted; `level` and
`is_boss` are the NPC fields read by the battle and value functions. -/
structure Combatant where
  name : String
  health : ℤ
  max_health : ℤ
  attack : ℤ
  defense : ℤ
  agility : ℤ
  weapon : Option Weapon
  credits : ℤ
  inventory : List Item
  level : ℤ
  is_boss : Bool
  deriving Repr, DecidableEq

namespace Combatant

/-- Embeds `Character.is_alive` / `Player.is_alive` / `NPC.is_alive`:
`self.health > 0`. -/
def is_alive (c : Combatant) : Bool :=
  0 < c.health

/-- Embeds `Character.get_total_attack` (= the Player/NPC overrides):
`self.attack + (self.weapon.attack if self.weapon else 0)`. -/
def get_total_attack (c : Combatant) : ℤ :=
  c.attack + (match c.weapon with | some w => w.attack | none => 0)

/-- Embeds `Player.take_damage` (entities/player.py:94-103) and
`NPC.take_damage` (entities/npc.py:79-82), which share the same logic:
`actual_damage = max(1, damage - self.defense)`;
`self.health = max(0, self.health - actual_damage)`; returns
`actual_damage`.  (The Player version additionally increments
bookkeeping counters in its `stats` dictionary, which hold no
battle-relevant state and are not modelled.) -/
def take_damage (c : Combatant) (damage : ℤ) : Combatant × ℤ :=
  let actual_damage := max 1 (damage - c.defense)
  ({ c with health := max 0 (c.health - actual_damage) }, actual_damage)

/-- Embeds `Character.attack_character`: the attacker's total attack is applied
to the target through the target's `take_damage`; returns the damage
dealt (the mutated target is returned explicitly here). -/
def attack_character (attacker target : Combatant) : Combatant × ℤ :=
  take_damage target (get_total_attack attacker)

end Combatant

/-- Embeds `Potion.use` (items/potion.py:12-20): no effect when health is
already full, otherwise heal by `heal_amount` capped at `max_health`;
returns whether the potion was applied. -/
def potion_use (heal_amount : ℤ) (c : Combatant) : Combatant × Bool :=
  if c.max_health ≤ c.health then (c, false)
  else ({ c with health := min c.max_health (c.health + heal_amount) }, true)

/-- Embeds `NPC.respawn` (entities/npc.py:201-218).  `choice` stands for
`random.choice(['attack', 'defense', 'agility'])`.  The new maximum is
`round(self.max_health * 1.10)`; Python evaluates that product in binary
floating point, which agrees with half-up integer rounding
`(11*mh + 5) fdiv 10` for every `mh` with `mh % 10 ≠ 5` (away from the
rounding boundary); halfway cases are representation-dependent in the
source and are excluded by the theorems that use this rounding. -/
def respawn (c : Combatant) (choice : Fin 3) : Combatant × String :=
  let new_max := Int.fdiv (11 * c.max_health + 5) 10
  let c := { c with max_health := new_max, health := new_max }
  match choice with
  | 0 => ({ c with attack := c.attack + 1 }, "attack")
  | 1 => ({ c with defense := c.defense + 1 }, "defense")
  | 2 => ({ c with agility := c.agility + 1 }, "agility")

/-- Removes the first inventory item with the given name
(Python `list.remove` of the first matching element). -/
def removeFirst (nm : String) : List Item → List Item
  | [] => []
  | it :: rest => if it.name = nm then rest else it :: removeFirst nm rest

/-- Embeds `BattleSystem.handle_phoenix_down` (battle_system.py:42-57): scan the
inventory for an item named "Phoenix Down"; if present, consume one
yes/no answer from the prompt stream; on "yes" remove that item, set
`health = max_health` and return true; otherwise return false.  Note the
source performs no check of the combatant's current health. -/
def handle_phoenix_down (c : Combatant) (confirms : List Bool) :
    Combatant × Bool × List Bool :=
  match c.inventory.find? (fun it => it.name = "Phoenix Down") with
  | some _ =>
      if confirms.headD false then
        ({ c with inventory := removeFirst ("Phoenix Down") c.inventory,
                  health := c.max_health }, true, confirms.tail)
      else (c, false, confirms.tail)
  | none => (c, false, confirms)

/-- The health reset `battle` performs once at battle start
(battle_system.py:136-138) for each combatant. -/
def reset_to_max (c : Combatant) : Combatant :=
  { c with health := c.max_health }

/-- The max-health branch of `BattleSystem.award_portal_boss_rewards`
(battle_system.py:505-508): `max_health += boost; health += boost`. -/
def boost_max_health (c : Combatant) (boost : ℤ) : Combatant :=
  { c with max_health := c.max_health + boost, health := c.health + boost }

/-- The health invariant of spec §8: `0 ≤ health ≤ max_health`. -/
def healthInBounds (c : Combatant) : Prop :=
  0 ≤ c.health ∧ c.health ≤ c.max_health

/-- The combo state the battle mutates on the enclosing game object
(`self.game.combo_count`, `self.game.combo_multiplier`).  The float
field `combo_multiplier` only ever holds values of the form
`1.0 + 0.1 * k`, and the battle code reads it once, in
`combo_bonus = int(base * (combo_multiplier - 1))`; it is stored here
exactly, scaled by ten (`combo_multiplier_tenths = 10` means `1.0`,
`11` means `1.1`, ...). -/
structure Game where
  combo_count : ℤ
  combo_multiplier_tenths : ℤ
  deriving Repr, DecidableEq

/-- The slice of the `battle_data` record (battle_system.py:116-131)
plus the post-battle combatant and combo states that the claims are
about. -/
structure BattleResult where
  result : String
  turns : ℕ
  player : Combatant
  npc : Combatant
  game : Game
  deriving Repr, DecidableEq

/-- The battle loop of `BattleSystem.battle` (battle_system.py:141-163),
one iteration per turn.  `_process_attack(attacker, defender, ...)`
(battle_system.py:165-185) is inlined at its two call sites: it deals
`attacker.attack_character(defender)` damage, invokes the Phoenix Down
hook only when the defender is the human player and is no longer alive,
and returns `defender.is_alive()`.  The boolean in the return value is
`true` when the loop exited from the player's turn (the NPC died) and
`false` when it exited from the NPC's turn (the player died and was
not revived).  `confirms` feeds the Phoenix Down prompt; the fuel only
serves Lean's termination checking (the loop always exits within
`npc.max_health` turns because the player deals at least 1 damage per
turn). -/
def battleLoop : ℕ → Combatant → Combatant → List Bool → ℕ →
    Option (Bool × Combatant × Combatant × ℕ)
  | 0, _, _, _, _ => none
  | fuel + 1, player, npc, confirms, turns =>
    -- Player's turn: `if not self._process_attack(player, npc, ...)`
    let npc1 := (Combatant.attack_character player npc).1
    if ¬ npc1.is_alive then
      -- the NPC died; the source takes the branch that resets the combo
      -- and calls `_handle_defeat`
      some (true, player, npc1, turns + 1)
    else
      -- NPC's turn: `if not self._process_attack(npc, player, ...)`
      let player1 := (Combatant.attack_character npc1 player).1
      if ¬ player1.is_alive then
        let pd := handle_phoenix_down player1 confirms
        if pd.2.1 then battleLoop fuel pd.1 npc1 pd.2.2 (turns + 1)
        else
          -- the player died unrevived; the source takes the branch that
          -- increments the combo and calls `_handle_victory`
          some (false, pd.1, npc1, turns + 1)
      else battleLoop fuel player1 npc1 confirms (turns + 1)

/-- Embeds `BattleSystem._handle_defeat` (battle_system.py:249-273):
`credit_loss = int(player.credits * 0.08)` is added to the NPC's
credits; the player's credits are not touched. -/
def handle_defeat (player npc : Combatant) : Combatant × Combatant :=
  let credit_loss := pyIntDiv (player.credits * 8) 100
  (player, { npc with credits := npc.credits + credit_loss })

/-- The respawn-relocation loop of `BattleSystem._handle_victory`
(battle_system.py:236-242): `while True:` draw a random `(row, col)`;
place there and break if `self.game.is_position_empty(...)`.  `isEmpty`
abstracts the grid-occupancy query and `draws` the successive random
draws; a `none` result means the list of draws was exhausted with the
loop still running — the source loop has no failure exit of its own. -/
def respawn_place_loop (isEmpty : ℤ → ℤ → Bool) :
    List (ℤ × ℤ) → Option (ℤ × ℤ)
  | [] => none
  | (row, col) :: rest =>
      if isEmpty row col then some (row, col)
      else respawn_place_loop isEmpty rest

/-- Embeds `BattleSystem._handle_victory` (battle_system.py:187-247).  Reads
the ambient combo multiplier (already updated by `battle` before the
call), pays `base + int(base * (multiplier - 1))` credits to the player,
transfers the NPC's entire inventory, and — for a non-boss NPC —
respawns it (`stat_choice` standing for the random stat pick) and
relocates it through the unbounded placement loop; `none` means that
loop is still running and the battle never returns. -/
def handle_victory (g : Game) (player npc : Combatant) (stat_choice : Fin 3)
    (isEmpty : ℤ → ℤ → Bool) (draws : List (ℤ × ℤ)) :
    Option (Combatant × Combatant) :=
  let base_credit_reward := pyIntDiv (npc.credits * 8) 100
  let combo_bonus := pyIntDiv (base_credit_reward * (g.combo_multiplier_tenths - 10)) 10
  let credit_reward := base_credit_reward + combo_bonus
  let player := { player with credits := player.credits + credit_reward,
                              inventory := player.inventory ++ npc.inventory }
  if npc.is_boss then some (player, npc)
  else
    let npc := (respawn npc stat_choice).1
    match respawn_place_loop isEmpty draws with
    | some _ => some (player, npc)
    | none => none

/-- Embeds `BattleSystem.battle` (battle_system.py:114-163): reset both
combatants' health to max once, run the loop, then — in the branch the
source actually takes — reset the combo and run `_handle_defeat` when
the NPC died (recording `result = "Defeat"`), or increment the combo
and run `_handle_victory` when the player died (recording
`result = "Victory"`). -/
def battle (g : Game) (player npc : Combatant) (confirms : List Bool)
    (stat_choice : Fin 3) (isEmpty : ℤ → ℤ → Bool) (draws : List (ℤ × ℤ))
    (fuel : ℕ) : Option BattleResult :=
  let player := reset_to_max player
  let npc := reset_to_max npc
  match battleLoop fuel player npc confirms 0 with
  | none => none
  | some (npcDied, player, npc, turns) =>
    if npcDied then
      let g : Game := { combo_count := 0, combo_multiplier_tenths := 10 }
      let (player, npc) := handle_defeat player npc
      some { result := "Defeat", turns := turns, player := player,
             npc := npc, game := g }
    else
      let g : Game := { combo_count := g.combo_count + 1,
                        combo_multiplier_tenths := 10 + (g.combo_count + 1) }
      match handle_victory g player npc stat_choice isEmpty draws with
      | some (player, npc) =>
        some { result := "Victory", turns := turns, player := player,
               npc := npc, game := g }
      | none => none

/-- Embeds `NPC.generate_random` (entities/npc.py:17-66) composed with
`NPC.__init__` (entities/npc.py:7-15).  `bh, ba, bd, bg` stand for the
base-stat draws `randint(60, 90)`, `randint(8, 15)`, `randint(5, 8)`,
`randint(5, 8)`, and `cred_draw` for the `randint(50, 200)` in
`__init__` (credits are `cred_draw * level`).  The level multiplier
`1 + 0.15 * (actual_level - 1)` is the exact rational
`(17 + 3 * actual_level) / 20`; the random name synthesis is not
modelled. -/
def generate_random (level : ℤ) (is_boss : Bool) (bh ba bd bg cred_draw : ℤ) :
    Combatant :=
  let actual_level := max 1 level
  let mulNum := 17 + 3 * actual_level
  let health := pyIntDiv (bh * mulNum) 20
  let attack := pyIntDiv (ba * mulNum) 20
  let defense := pyIntDiv (bd * mulNum) 20
  let agility := pyIntDiv (bg * mulNum) 20
  let health := if is_boss then health * 2 else health
  let attack := if is_boss then attack * 2 else attack
  let defense := if is_boss then defense * 2 else defense
  let agility := if is_boss then agility * 2 else agility
  { name := "NPC", health := health, max_health := health,
    attack := attack, defense := defense, agility := agility,
    weapon := none, credits := cred_draw * actual_level, inventory := [],
    level := actual_level, is_boss := is_boss }

/-- The player-scaled boss max health computed at battle_system.py:303:
`int((player.max_health * 0.8) * level_multiplier)` with
`level_multiplier = 1.0 + dungeon_level * 0.08 = (25 + 2*L) / 25`
(battle_system.py:299).  The source computes this local variable and
never assigns it to the boss object. -/
def portal_scaled_health (p : Combatant) (dungeon_level : ℤ) : ℤ :=
  pyIntDiv (p.max_health * 4 * (25 + 2 * dungeon_level)) 125

/-- The player-scaled boss attack computed at battle_system.py:305:
`int((player.attack * 0.7) * level_multiplier)`; also a dead local. -/
def portal_scaled_attack (p : Combatant) (dungeon_level : ℤ) : ℤ :=
  pyIntDiv (p.attack * 7 * (25 + 2 * dungeon_level)) 250

/-- The boss weapon attack computed at battle_system.py:318-319:
`int((player.weapon.attack if player.weapon else player.attack) * 0.5 *
level_multiplier)`; unlike the scaled stats above, this one is assigned
to the boss's weapon. -/
def portal_weapon_attack (p : Combatant) (dungeon_level : ℤ) : ℤ :=
  pyIntDiv ((match p.weapon with | some w => w.attack | none => p.attack)
      * (25 + 2 * dungeon_level)) 50

/-- One boss of `BattleSystem.battle_portal_boss`
(battle_system.py:294-342): the boss object is built by
`NPC.generate_random(self.game.player_pos[0], is_boss=True)` and then
only `name`, `symbol`, `weapon`, `credits` and `inventory` are
overridden — the player-scaled `health`/`attack`/`defense`/`agility`
locals computed at battle_system.py:303-309 are discarded.
`cred_rand` is the `randint(1000, 3000)` draw, `boss_items` the two
weighted item draws. -/
def make_portal_boss (p : Combatant) (dungeon_level : ℤ)
    (bh ba bd bg cred_draw cred_rand : ℤ) (weapon_name : String)
    (boss_items : List Item) : Combatant :=
  let boss := generate_random dungeon_level true bh ba bd bg cred_draw
  { boss with
      weapon := some ⟨weapon_name, portal_weapon_attack p dungeon_level⟩,
      credits := pyIntDiv (cred_rand * (25 + 2 * dungeon_level)) 25,
      inventory := boss_items }

/-- Embeds `NPC.get_credit_value` (entities/npc.py:122-128):
`base = 10 * level`; doubled for bosses; `max(1, base)`. -/
def get_credit_value (n : Combatant) : ℤ :=
  let base_credits := 10 * n.level
  let base_credits := if n.is_boss then base_credits * 2 else base_credits
  max 1 base_credits

/-- Embeds `NPC.get_experience_value` (entities/npc.py:100-120):
`base_exp = max_health*0.2 + attack*2 + defense*2 + agility*1`, scaled
by `1 + (level-1)*0.1`, floored at `20*level`, doubled for bosses
*after* that floor, and truncated with `int(...)`.  The exact rational
value before truncation is `num / 100` with
`num = (2*mh + 20*atk + 20*def + 10*agi) * (9 + level)`. -/
def get_experience_value (n : Combatant) : ℤ :=
  let num := (2 * n.max_health + 20 * n.attack + 20 * n.defense
      + 10 * n.agility) * (9 + n.level)
  let num := max (2000 * n.level) num
  let num := if n.is_boss then num * 2 else num
  pyIntDiv num 100

/-- The experience formula exactly as claim C10 words it — the boss
doubling applied inside the second argument of the `max` only:
`max(20*level, scaled * (2 if boss else 1))`, truncated.  Defined for
comparison with `get_experience_value`; not part of the source. -/
def spec_experience_value (n : Combatant) : ℤ :=
  let num := (2 * n.max_health + 20 * n.attack + 20 * n.defense
      + 10 * n.agility) * (9 + n.level)
  let num := if n.is_boss then num * 2 else num
  pyIntDiv (max (2000 * n.level) num) 100

/-! ### Helper lemmas -/

theorem attack_character_fst_credits (a t : Combatant) :
    ((Combatant.attack_character a t).1).credits = t.credits := rfl

theorem handle_phoenix_down_fst_credits (c : Combatant) (confirms : List Bool) :
    ((handle_phoenix_down c confirms).1).credits = c.credits := by
  unfold handle_phoenix_down
  split
  · split <;> rfl
  · rfl

/-- Through the battle loop, neither side's credits change (the loop
touches only health and, on a revival, the player's inventory). -/
theorem battleLoop_credits (fuel : ℕ) (p n : Combatant) (confirms : List Bool)
    (t : ℕ) (b : Bool) (p' n' : Combatant) (t' : ℕ)
    (h : battleLoop fuel p n confirms t = some (b, p', n', t')) :
    p'.credits = p.credits ∧ n'.credits = n.credits := by
  induction fuel generalizing p n confirms t with
  | zero => simp [battleLoop] at h
  | succ fuel ih =>
    simp only [battleLoop] at h
    split at h
    · simp only [Option.some.injEq, Prod.mk.injEq] at h
      obtain ⟨rfl, rfl, rfl, rfl⟩ := h
      exact ⟨rfl, attack_character_fst_credits p n⟩
    · split at h
      · split at h
        · have hr := ih _ _ _ _ h
          constructor
          · rw [hr.1, handle_phoenix_down_fst_credits, attack_character_fst_credits]
          · rw [hr.2, attack_character_fst_credits]
        · simp only [Option.some.injEq, Prod.mk.injEq] at h
          obtain ⟨rfl, rfl, rfl, rfl⟩ := h
          constructor
          · rw [handle_phoenix_down_fst_credits, attack_character_fst_credits]
          · exact attack_character_fst_credits _ _
      · have hr := ih _ _ _ _ h
        constructor
        · rw [hr.1, attack_character_fst_credits]
        · rw [hr.2, attack_character_fst_credits]

/-- Whenever `_handle_victory` completes, the returned player holds the
starting credits plus `base + int(base * (combo_multiplier - 1))`. -/
theorem handle_victory_player_credits (g : Game) (p n : Combatant) (sc : Fin 3)
    (ie : ℤ → ℤ → Bool) (dr : List (ℤ × ℤ)) (p2 n2 : Combatant)
    (h : handle_victory g p n sc ie dr = some (p2, n2)) :
    p2.credits = p.credits + (pyIntDiv (n.credits * 8) 100
      + pyIntDiv (pyIntDiv (n.credits * 8) 100 * (g.combo_multiplier_tenths - 10)) 10) := by
  simp only [handle_victory] at h
  split at h
  · simp only [Option.some.injEq, Prod.mk.injEq] at h
    obtain ⟨rfl, rfl⟩ := h
    rfl
  · split at h
    · simp only [Option.some.injEq, Prod.mk.injEq] at h
      obtain ⟨rfl, rfl⟩ := h
      rfl
    · exact absurd h (by simp)

/-! ### Claim theorems -/

/-- The spec scenario's player: health 100, attack 20, defense 5,
no weapon. -/
def c1_player : Combatant :=
  ⟨"Player", 100, 100, 20, 5, 5, none, 1000, [], 1, false⟩

/-- The spec scenario's NPC: health 30, attack 10, defense 3,
no weapon. -/
def c1_npc : Combatant :=
  ⟨"Goblin", 30, 30, 10, 3, 5, none, 100, [], 1, false⟩

/-- **C1.** The claim says this scenario ends in PlayerVictory with
turn count 2.  The damage arithmetic and the turn count are as claimed
(player 100 → 95 HP, NPC 30 → 13 → 0 HP, two turns), but
`BattleSystem.battle` takes the `_handle_defeat` branch when the NPC
dies (battle_system.py:146-153 calls `_handle_defeat` when
`_process_attack(player, npc, ...)` — which returns `npc.is_alive()` —
is false), so the battle the claim describes is recorded with
`result = "Defeat"`: the code inverts the two outcome handlers,
contradicting its own inline comments and printed messages. -/
theorem battle_scenario_runs_defeat_handler :
    (battle ⟨0, 10⟩ c1_player c1_npc [] 0 (fun _ _ => true) [] 5).map
      (fun r => (r.result, r.turns, r.player.health, r.npc.health)) =
      some ("Defeat", 2, 95, 0) := by
  rfl

/-- **C2.** `take_damage` returns `actualDamage = max(1, raw - defense)`,
which is at least 1, and sets `health = max(0, health - actualDamage)` —
for every combatant (Player and NPC share this override) and every
non-negative raw amount. -/
theorem take_damage_spec (c : Combatant) (damage : ℤ) (hd : 0 ≤ damage) :
    (Combatant.take_damage c damage).2 = max 1 (damage - c.defense) ∧
    1 ≤ (Combatant.take_damage c damage).2 ∧
    (Combatant.take_damage c damage).1.health
      = max 0 (c.health - (Combatant.take_damage c damage).2) ∧
    0 ≤ (Combatant.take_damage c damage).1.health := by
  exact ⟨rfl, le_max_left _ _, rfl, le_max_left _ _⟩

/-- A combatant used to instantiate `take_damage_spec`. -/
def c2_npc : Combatant :=
  ⟨"Guard", 30, 30, 10, 3, 5, none, 0, [], 1, false⟩

theorem take_damage_spec_witness :
    (0 : ℤ) ≤ 20 ∧
    ((Combatant.take_damage c2_npc 20).2 = max 1 (20 - c2_npc.defense) ∧
     1 ≤ (Combatant.take_damage c2_npc 20).2 ∧
     (Combatant.take_damage c2_npc 20).1.health
       = max 0 (c2_npc.health - (Combatant.take_damage c2_npc 20).2) ∧
     0 ≤ (Combatant.take_damage c2_npc 20).1.health) :=
  ⟨by decide, take_damage_spec c2_npc 20 (by decide)⟩

/-- Combo state before the C3 counterexample battle: no streak,
multiplier 1.0. -/
def c3_game : Game := ⟨0, 10⟩

/-- A player who falls in one round (the code's `"Victory"`-labelled
path). -/
def c3_player : Combatant :=
  ⟨"Hero", 10, 10, 1, 0, 0, none, 1000, [], 1, false⟩

/-- A boss NPC with 200 credits (base reward 16). -/
def c3_npc : Combatant :=
  ⟨"Guardian", 100, 100, 50, 5, 0, none, 200, [], 1, true⟩

/-- The full outcome of the C3 counterexample battle, as computed by
`battle`. -/
def c3_result : BattleResult :=
  ⟨"Victory", 1, ⟨"Hero", 0, 10, 1, 0, 0, none, 1017, [], 1, false⟩,
    ⟨"Guardian", 99, 100, 50, 5, 0, none, 200, [], 1, true⟩, ⟨1, 11⟩⟩

/-- **C3, counterexample.** The claim computes the combo bonus with the
multiplier in effect before the combo update (spec order: reward first,
then combo update).  Starting from combo 0 / multiplier 1.0 against an
NPC with 200 credits, that gives `16 + floor(16 * (1.0 - 1)) = 16`
credits; the code updates the combo first (battle_system.py:161-162)
and then pays `16 + floor(16 * (1.1 - 1)) = 17`
(battle_system.py:193-196). -/
theorem victory_reward_order_cx :
    battle c3_game c3_player c3_npc [] 0 (fun _ _ => true) [] 5
      = some c3_result ∧
    c3_result.player.credits ≠
      c3_player.credits + (pyIntDiv (c3_npc.credits * 8) 100
        + pyIntDiv (pyIntDiv (c3_npc.credits * 8) 100
            * (c3_game.combo_multiplier_tenths - 10)) 10) := by
  exact ⟨rfl, by decide⟩

/-- **C3, amended.** On the code's `"Victory"`-labelled outcome the
player's credits grow by `totalCredits = baseCredits + comboBonus` with
`baseCredits = floor(npc.credits * 0.08)`, but the combo state is
updated *first* (`combo_count + 1`,
`combo_multiplier = 1 + 0.1 * (combo_count + 1)`), and
`comboBonus = floor(baseCredits * (newMultiplier - 1))
            = floor(baseCredits * (combo_count + 1) / 10)`
uses the updated multiplier. -/
theorem victory_reward_amended (g : Game) (p n : Combatant)
    (confirms : List Bool) (sc : Fin 3) (isEmpty : ℤ → ℤ → Bool)
    (draws : List (ℤ × ℤ)) (fuel : ℕ) (r : BattleResult)
    (hrun : battle g p n confirms sc isEmpty draws fuel = some r)
    (hvic : r.result = "Victory") :
    r.player.credits = p.credits + (pyIntDiv (n.credits * 8) 100
      + pyIntDiv (pyIntDiv (n.credits * 8) 100 * (g.combo_count + 1)) 10) ∧
    r.game.combo_count = g.combo_count + 1 ∧
    r.game.combo_multiplier_tenths = 10 + (g.combo_count + 1) := by
  simp only [battle] at hrun
  cases hbl : battleLoop fuel (reset_to_max p) (reset_to_max n) confirms 0 with
  | none => rw [hbl] at hrun; simp at hrun
  | some q =>
    obtain ⟨b, p1, n1, t1⟩ := q
    rw [hbl] at hrun
    cases b with
    | true =>
      simp only [if_true, Option.some.injEq] at hrun
      subst hrun
      dsimp only at hvic
      exact absurd hvic (by decide)
    | false =>
      simp only [Bool.false_eq_true, if_false] at hrun
      cases hv : handle_victory ⟨g.combo_count + 1, 10 + (g.combo_count + 1)⟩
          p1 n1 sc isEmpty draws with
      | none => rw [hv] at hrun; simp at hrun
      | some pr =>
        obtain ⟨p2, n2⟩ := pr
        rw [hv] at hrun
        simp only [Option.some.injEq] at hrun
        subst hrun
        obtain ⟨hp1, hn1⟩ := battleLoop_credits _ _ _ _ _ _ _ _ _ hbl
        have hv2 := handle_victory_player_credits _ _ _ _ _ _ _ _ hv
        refine ⟨?_, rfl, rfl⟩
        have ht : (10 + (g.combo_count + 1) - 10 : ℤ) = g.combo_count + 1 := by
          ring
        simpa [hp1, hn1, reset_to_max, ht] using hv2

theorem victory_reward_amended_witness :
    c3_result.player.credits = c3_player.credits
      + (pyIntDiv (c3_npc.credits * 8) 100
        + pyIntDiv (pyIntDiv (c3_npc.credits * 8) 100
            * (c3_game.combo_count + 1)) 10) ∧
    c3_result.game.combo_count = c3_game.combo_count + 1 ∧
    c3_result.game.combo_multiplier_tenths = 10 + (c3_game.combo_count + 1) :=
  victory_reward_amended c3_game c3_player c3_npc [] 0 (fun _ _ => true) []
    5 c3_result rfl rfl

/-- Combo state before the C4 demonstration battle (a running streak,
to exhibit the reset). -/
def c4_game : Game := ⟨5, 15⟩

/-- The C4 demonstration player (survives; the NPC dies in two turns,
which is the code path that records `result = "Defeat"`). -/
def c4_player : Combatant :=
  ⟨"Avatar", 100, 100, 20, 5, 5, none, 1000, [], 1, false⟩

/-- The C4 demonstration NPC. -/
def c4_npc : Combatant :=
  ⟨"Bandit", 30, 30, 10, 3, 5, none, 100, [], 1, false⟩

/-- The full outcome of the C4 demonstration battle, as computed by
`battle`: the NPC gained `floor(1000 * 0.08) = 80` credits, the player
still holds 1000, and the combo state is reset to `(0, 1.0)`. -/
def c4_result : BattleResult :=
  ⟨"Defeat", 2, ⟨"Avatar", 95, 100, 20, 5, 5, none, 1000, [], 1, false⟩,
    ⟨"Bandit", 0, 30, 10, 3, 5, none, 180, [], 1, false⟩, ⟨0, 10⟩⟩

/-- **C4.** On the code's `"Defeat"`-labelled outcome,
`creditLoss = floor(player.credits * 0.08)` is added to the NPC's
credits (battle_system.py:256-257), the player's credits are left
unchanged (the loss is never subtracted from the player), and the combo
state is reset to `combo_count = 0`, `combo_multiplier = 1.0`
(battle_system.py:151-152). -/
theorem defeat_penalty_spec (g : Game) (p n : Combatant)
    (confirms : List Bool) (sc : Fin 3) (isEmpty : ℤ → ℤ → Bool)
    (draws : List (ℤ × ℤ)) (fuel : ℕ) (r : BattleResult)
    (hrun : battle g p n confirms sc isEmpty draws fuel = some r)
    (hdef : r.result = "Defeat") (hc : 0 ≤ p.credits) :
    r.npc.credits = n.credits + pyIntDiv (p.credits * 8) 100 ∧
    r.player.credits = p.credits ∧
    r.game.combo_count = 0 ∧
    r.game.combo_multiplier_tenths = 10 := by
  simp only [battle] at hrun
  cases hbl : battleLoop fuel (reset_to_max p) (reset_to_max n) confirms 0 with
  | none => rw [hbl] at hrun; simp at hrun
  | some q =>
    obtain ⟨b, p1, n1, t1⟩ := q
    rw [hbl] at hrun
    cases b with
    | true =>
      simp only [if_true, Option.some.injEq] at hrun
      subst hrun
      obtain ⟨hp1, hn1⟩ := battleLoop_credits _ _ _ _ _ _ _ _ _ hbl
      refine ⟨?_, ?_, rfl, rfl⟩
      · show (handle_defeat p1 n1).2.credits = _
        simp only [handle_defeat]
        rw [hp1, hn1]
        rfl
      · show (handle_defeat p1 n1).1.credits = _
        rw [show (handle_defeat p1 n1).1 = p1 from rfl, hp1]
        rfl
    | false =>
      simp only [Bool.false_eq_true, if_false] at hrun
      cases hv : handle_victory ⟨g.combo_count + 1, 10 + (g.combo_count + 1)⟩
          p1 n1 sc isEmpty draws with
      | none => rw [hv] at hrun; simp at hrun
      | some pr =>
        obtain ⟨p2, n2⟩ := pr
        rw [hv] at hrun
        simp only [Option.some.injEq] at hrun
        subst hrun
        dsimp only at hdef
        exact absurd hdef (by decide)

theorem defeat_penalty_spec_witness :
    ((0 : ℤ) ≤ c4_player.credits) ∧
    (c4_result.npc.credits = c4_npc.credits
        + pyIntDiv (c4_player.credits * 8) 100 ∧
      c4_result.player.credits = c4_player.credits ∧
      c4_result.game.combo_count = 0 ∧
      c4_result.game.combo_multiplier_tenths = 10) :=
  ⟨by decide, defeat_penalty_spec c4_game c4_player c4_npc [] 0
    (fun _ _ => true) [] 5 c4_result rfl rfl (by decide)⟩

/-- Removing the first item found by `find?` shortens the list by
exactly one. -/
theorem removeFirst_length (nm : String) (l : List Item) (it : Item)
    (h : l.find? (fun x => x.name = nm) = some it) :
    (removeFirst nm l).length + 1 = l.length := by
  induction l with
  | nil => simp [List.find?] at h
  | cons a rest ih =>
    by_cases ha : a.name = nm
    · simp [removeFirst, ha]
    · have hr := ih (by simpa [List.find?_cons, ha] using h)
      simp only [removeFirst, ha, if_false, List.length_cons]
      omega

/-- A living combatant (health 50 of 100) holding a Phoenix Down. -/
def c5_living : Combatant :=
  ⟨"Survivor", 50, 100, 10, 5, 5, none, 0, [⟨"Phoenix Down", 0⟩], 1, false⟩

/-- **C5, counterexample.** The claim says revival can only succeed when
`health <= 0` and that calling the hook on a living combatant returns
false and mutates nothing.  `BattleSystem.handle_phoenix_down` itself
performs no health check: called on a living combatant (health 50/100)
holding a Phoenix Down with the prompt answered "y", it returns true,
sets health to 100 and consumes the item. -/
theorem phoenix_down_living_cx :
    c5_living.is_alive = true ∧
    (handle_phoenix_down c5_living [true]).2.1 = true ∧
    (handle_phoenix_down c5_living [true]).1.health = 100 ∧
    c5_living.health = 50 ∧
    (handle_phoenix_down c5_living [true]).1.inventory = [] := by
  decide

/-- **C5, amended.** The `health <= 0` guard lives at the call site
(`_process_attack` invokes the hook only when the defender is no longer
alive, battle_system.py:180-183), not in `handle_phoenix_down` itself.
The hook: with no Phoenix Down present it returns false and mutates
nothing; with one present and the confirmation accepted it consumes
exactly one such item, sets `health = max_health` and returns true —
regardless of current health; with one present and the confirmation
declined it returns false and mutates nothing (beyond consuming the
answer). -/
theorem phoenix_down_amended (c : Combatant) (confirms : List Bool) :
    (c.inventory.find? (fun it => it.name = "Phoenix Down") = none →
      handle_phoenix_down c confirms = (c, false, confirms)) ∧
    (∀ it, c.inventory.find? (fun it => it.name = "Phoenix Down") = some it →
      confirms.headD false = true →
      (handle_phoenix_down c confirms).1.health = c.max_health ∧
      (handle_phoenix_down c confirms).1.inventory
        = removeFirst ("Phoenix Down") c.inventory ∧
      ((handle_phoenix_down c confirms).1.inventory).length + 1
        = c.inventory.length ∧
      (handle_phoenix_down c confirms).2.1 = true) ∧
    (∀ it, c.inventory.find? (fun it => it.name = "Phoenix Down") = some it →
      confirms.headD false = false →
      handle_phoenix_down c confirms = (c, false, confirms.tail)) := by
  refine ⟨?_, ?_, ?_⟩
  · intro h
    simp only [handle_phoenix_down, h]
  · intro it h hcf
    simp only [handle_phoenix_down, h, hcf, if_true]
    refine ⟨?_, ?_, ?_, ?_⟩ <;> try trivial
    exact removeFirst_length ("Phoenix Down") c.inventory it h
  · intro it h hcf
    simp only [handle_phoenix_down, h, hcf, Bool.false_eq_true, if_false]

/-- A fallen combatant (health 0) holding a Phoenix Down and a potion. -/
def c5_fallen : Combatant :=
  ⟨"Fallen", 0, 80, 10, 5, 5, none, 0,
    [⟨"Phoenix Down", 0⟩, ⟨"Small Potion", 20⟩], 1, false⟩

theorem phoenix_down_amended_witness :
    (handle_phoenix_down c5_fallen [true]).1.health = c5_fallen.max_health ∧
    (handle_phoenix_down c5_fallen [true]).1.inventory
      = removeFirst ("Phoenix Down") c5_fallen.inventory ∧
    ((handle_phoenix_down c5_fallen [true]).1.inventory).length + 1
      = c5_fallen.inventory.length ∧
    (handle_phoenix_down c5_fallen [true]).2.1 = true :=
  (phoenix_down_amended c5_fallen [true]).2.1 ⟨"Phoenix Down", 0⟩
    (by decide) (by decide)

/-- **C6.** Starting from any state satisfying
`0 ≤ health ≤ max_health`, every health-touching operation of the core
(take_damage with any raw amount, potion use with non-negative heal,
the Phoenix Down hook, respawn, the battle-start reset, and the
portal-reward max-health boost with non-negative boost) preserves
`0 ≤ health ≤ max_health`. -/
theorem health_bounds_invariant (c : Combatant) (hc : healthInBounds c) :
    (∀ damage, healthInBounds (Combatant.take_damage c damage).1) ∧
    (∀ heal, 0 ≤ heal → healthInBounds (potion_use heal c).1) ∧
    (∀ confirms, healthInBounds (handle_phoenix_down c confirms).1) ∧
    (∀ choice, healthInBounds (respawn c choice).1) ∧
    healthInBounds (reset_to_max c) ∧
    (∀ boost, 0 ≤ boost → healthInBounds (boost_max_health c boost)) := by
  obtain ⟨h0, hm⟩ := hc
  have h0m : 0 ≤ c.max_health := le_trans h0 hm
  refine ⟨?_, ?_, ?_, ?_, ⟨h0m, le_refl _⟩, ?_⟩
  · intro damage
    have h1 : 1 ≤ max 1 (damage - c.defense) := le_max_left _ _
    refine ⟨le_max_left _ _, ?_⟩
    show max 0 (c.health - max 1 (damage - c.defense)) ≤ c.max_health
    exact max_le h0m (by omega)
  · intro heal hheal
    unfold potion_use
    split
    · exact ⟨h0, hm⟩
    · exact ⟨le_min h0m (by omega), min_le_left _ _⟩
  · intro confirms
    unfold handle_phoenix_down
    split
    · split
      · exact ⟨h0m, le_refl _⟩
      · exact ⟨h0, hm⟩
    · exact ⟨h0, hm⟩
  · intro choice
    have hnm : 0 ≤ Int.fdiv (11 * c.max_health + 5) 10 :=
      Int.fdiv_nonneg (by omega) (by omega)
    fin_cases choice <;> exact ⟨hnm, le_refl _⟩
  · intro boost hboost
    refine ⟨?_, ?_⟩ <;> simp only [boost_max_health] <;> omega

/-- A mid-battle combatant state used to instantiate
`health_bounds_invariant`. -/
def c6_subject : Combatant :=
  ⟨"Subject", 40, 60, 10, 5, 5, none, 0, [⟨"Phoenix Down", 0⟩], 1, false⟩

theorem health_bounds_invariant_witness :
    healthInBounds (Combatant.take_damage c6_subject 999).1 ∧
    healthInBounds (potion_use 50 c6_subject).1 ∧
    healthInBounds (reset_to_max c6_subject) :=
  have h := health_bounds_invariant c6_subject ⟨by decide, by decide⟩
  ⟨h.1 999, h.2.1 50 (by decide), h.2.2.2.2.1⟩

/-- **C7.** After `NPC.respawn`: the new maximum is
`round(max_health * 1.10)` (modelled as half-up rounding
`(11*mh + 5) fdiv 10`, which matches Python's float evaluation whenever
`mh % 10 ≠ 5`; exact halfway products are representation-dependent in
the source and excluded here), the NPC is fully healed to the new
maximum, exactly one of attack/defense/agility grows by exactly 1 while
the other two are unchanged, and the name of the increased stat is
returned. -/
theorem respawn_spec (c : Combatant) (choice : Fin 3)
    (h : c.max_health % 10 ≠ 5) :
    (respawn c choice).1.max_health = Int.fdiv (11 * c.max_health + 5) 10 ∧
    (respawn c choice).1.health = (respawn c choice).1.max_health ∧
    (((respawn c choice).1.attack = c.attack + 1 ∧
      (respawn c choice).1.defense = c.defense ∧
      (respawn c choice).1.agility = c.agility ∧
      (respawn c choice).2 = "attack") ∨
     ((respawn c choice).1.attack = c.attack ∧
      (respawn c choice).1.defense = c.defense + 1 ∧
      (respawn c choice).1.agility = c.agility ∧
      (respawn c choice).2 = "defense") ∨
     ((respawn c choice).1.attack = c.attack ∧
      (respawn c choice).1.defense = c.defense ∧
      (respawn c choice).1.agility = c.agility + 1 ∧
      (respawn c choice).2 = "agility")) := by
  fin_cases choice
  · exact ⟨rfl, rfl, Or.inl ⟨rfl, rfl, rfl, rfl⟩⟩
  · exact ⟨rfl, rfl, Or.inr (Or.inl ⟨rfl, rfl, rfl, rfl⟩)⟩
  · exact ⟨rfl, rfl, Or.inr (Or.inr ⟨rfl, rfl, rfl, rfl⟩)⟩

/-- An NPC with max health 30 (respawn → 33) used to instantiate
`respawn_spec`. -/
def c7_npc : Combatant :=
  ⟨"Wolf", 30, 30, 10, 3, 5, none, 50, [], 1, false⟩

theorem respawn_spec_witness :
    c7_npc.max_health % 10 ≠ 5 ∧
    ((respawn c7_npc 0).1.max_health
        = Int.fdiv (11 * c7_npc.max_health + 5) 10 ∧
     (respawn c7_npc 0).1.health = (respawn c7_npc 0).1.max_health ∧
     (((respawn c7_npc 0).1.attack = c7_npc.attack + 1 ∧
       (respawn c7_npc 0).1.defense = c7_npc.defense ∧
       (respawn c7_npc 0).1.agility = c7_npc.agility ∧
       (respawn c7_npc 0).2 = "attack") ∨
      ((respawn c7_npc 0).1.attack = c7_npc.attack ∧
       (respawn c7_npc 0).1.defense = c7_npc.defense + 1 ∧
       (respawn c7_npc 0).1.agility = c7_npc.agility ∧
       (respawn c7_npc 0).2 = "defense") ∨
      ((respawn c7_npc 0).1.attack = c7_npc.attack ∧
       (respawn c7_npc 0).1.defense = c7_npc.defense ∧
       (respawn c7_npc 0).1.agility = c7_npc.agility + 1 ∧
       (respawn c7_npc 0).2 = "agility"))) :=
  ⟨by decide, respawn_spec c7_npc 0 (by decide)⟩

/-- The player standing at a portal on dungeon level 0 for the C8
demonstration. -/
def c8_player : Combatant :=
  ⟨"Portal Hero", 100, 100, 20, 10, 10, none, 500, [], 1, false⟩

/-- **C8.** The claim says each portal boss's max health is
`floor(player.max_health * 0.8 * m)` (= 80 for this player at dungeon
level 0).  The source computes exactly those player-scaled stats
(battle_system.py:303-309) but never assigns them to the boss object:
the boss is built by `NPC.generate_random(level, is_boss=True)`
(battle_system.py:326) and only name/symbol/weapon/credits/inventory
are overridden.  Hence for every possible base-health draw
`bh ∈ [60, 90]` the boss's max health is `2 * bh ∈ [120, 180]`,
never the claimed 80. -/
theorem portal_boss_stats_not_player_scaled (bh ba bd bg cred_draw cred_rand : ℤ)
    (weapon_name : String) (items : List Item)
    (h1 : 60 ≤ bh) (h2 : bh ≤ 90) :
    (make_portal_boss c8_player 0 bh ba bd bg cred_draw cred_rand
        weapon_name items).max_health = 2 * bh ∧
    portal_scaled_health c8_player 0 = 80 ∧
    (make_portal_boss c8_player 0 bh ba bd bg cred_draw cred_rand
        weapon_name items).max_health ≠ portal_scaled_health c8_player 0 := by
  have hmax : (max 1 (0 : ℤ)) = 1 := by decide
  have hmh : (make_portal_boss c8_player 0 bh ba bd bg cred_draw cred_rand
      weapon_name items).max_health = 2 * bh := by
    simp only [make_portal_boss, generate_random, hmax, pyIntDiv]
    norm_num
    ring
  have hps : portal_scaled_health c8_player 0 = 80 := by decide
  refine ⟨hmh, hps, ?_⟩
  rw [hmh, hps]
  omega

theorem portal_boss_stats_not_player_scaled_witness :
    ((60 : ℤ) ≤ 60 ∧ (60 : ℤ) ≤ 90) ∧
    ((make_portal_boss c8_player 0 60 10 6 6 100 1000 ("Sword") []).max_health
        = 2 * 60 ∧
     portal_scaled_health c8_player 0 = 80 ∧
     (make_portal_boss c8_player 0 60 10 6 6 100 1000 ("Sword") []).max_health
        ≠ portal_scaled_health c8_player 0) :=
  ⟨⟨by decide, by decide⟩,
    portal_boss_stats_not_player_scaled 60 10 6 6 100 1000 ("Sword") []
      (by decide) (by decide)⟩

/-- A level with no empty cell: the occupancy query answers false
everywhere. -/
def no_empty_cell : ℤ → ℤ → Bool := fun _ _ => false

/-- The C9 demonstration player (falls in one round, putting the battle
on the code path that calls `_handle_victory` and hence the
respawn-relocation loop). -/
def c9_player : Combatant :=
  ⟨"Challenger", 10, 10, 1, 0, 0, none, 1000, [], 1, false⟩

/-- The C9 demonstration non-boss NPC (non-boss victory triggers
respawn and relocation). -/
def c9_npc : Combatant :=
  ⟨"Raider", 100, 100, 50, 5, 0, none, 200, [], 1, false⟩

/-- **C9.** The claim says the respawn-relocation step retries only up
to a bounded attempt count and returns a null-position failure when no
empty cell exists, with the battle result still finalized.  The source
loop (battle_system.py:236-242) is `while True:` with no bound and no
failure exit: on a level with no empty cell it never breaks after any
finite number of draws (first conjunct), and the enclosing battle never
finalizes its result (second conjunct: the battle, which reaches the
relocation loop, yields no outcome for any finite draw sequence). -/
theorem respawn_relocation_unbounded :
    (∀ draws, respawn_place_loop no_empty_cell draws = none) ∧
    (∀ draws, battle ⟨0, 10⟩ c9_player c9_npc [] 0 no_empty_cell draws 5
      = none) := by
  have hloop : ∀ draws, respawn_place_loop no_empty_cell draws = none := by
    intro draws
    induction draws with
    | nil => rfl
    | cons d rest ih =>
      obtain ⟨r, c⟩ := d
      simp [respawn_place_loop, no_empty_cell, ih]
  refine ⟨hloop, fun draws => ?_⟩
  have hbl : battleLoop 5 (reset_to_max c9_player) (reset_to_max c9_npc) [] 0
      = some (false, ⟨"Challenger", 0, 10, 1, 0, 0, none, 1000, [], 1, false⟩,
          ⟨"Raider", 99, 100, 50, 5, 0, none, 200, [], 1, false⟩, 1) := by
    rfl
  simp [battle, hbl, handle_victory, hloop draws]

/-- A weak level-1 boss NPC: its scaled stat total (7) is far below the
`20 * level` floor. -/
def c10_boss : Combatant :=
  ⟨"Bossling", 10, 10, 1, 1, 1, none, 0, [], 1, true⟩

/-- **C10, counterexample.** The claim's formula applies the boss
doubling inside `max`'s second argument only:
`max(20*1, 7 * 2) = 20`.  The source doubles *after* the
`max(20*level, ...)` floor (entities/npc.py:114-118):
`max(20*1, 7) * 2 = 40`. -/
theorem experience_boss_floor_cx :
    get_experience_value c10_boss = 40 ∧
    spec_experience_value c10_boss = 20 ∧
    get_experience_value c10_boss ≠ spec_experience_value c10_boss := by
  exact ⟨by decide, by decide, by decide⟩

/-- **C10, amended.** The value functions are pure functions of
(level, isBoss, stats):
`creditValue = max(1, 10*level*(2 if boss else 1))` exactly as claimed
(30 for a non-boss at level 3, 60 for a boss at level 3), and
`expValue = int(max(20*level, (0.2*mh + 2*atk + 2*def + 1*agi)
  * (1 + 0.1*(level-1))) * (2 if boss else 1))` — the boss doubling is
applied after the `20*level` floor, not inside it. -/
theorem npc_value_functions_amended (n : Combatant) :
    get_credit_value n = max 1 (10 * n.level * (if n.is_boss then 2 else 1)) ∧
    get_experience_value n =
      pyIntDiv ((max (2000 * n.level)
        ((2 * n.max_health + 20 * n.attack + 20 * n.defense + 10 * n.agility)
          * (9 + n.level))) * (if n.is_boss then 2 else 1)) 100 ∧
    (n.level = 3 → n.is_boss = false → get_credit_value n = 30) ∧
    (n.level = 3 → n.is_boss = true → get_credit_value n = 60) := by
  refine ⟨?_, ?_, ?_, ?_⟩
  · unfold get_credit_value
    cases hb : n.is_boss <;> simp [hb]
  · unfold get_experience_value
    cases hb : n.is_boss <;> simp [hb]
  · intro h1 h2
    unfold get_credit_value
    rw [h1, h2]
    decide
  · intro h1 h2
    unfold get_credit_value
    rw [h1, h2]
    decide

/-- A level-3 non-boss NPC. -/
def c10_lvl3 : Combatant :=
  ⟨"Triad", 50, 50, 10, 5, 5, none, 0, [], 3, false⟩

/-- A level-3 boss NPC. -/
def c10_lvl3_boss : Combatant :=
  ⟨"Triad King", 50, 50, 10, 5, 5, none, 0, [], 3, true⟩

theorem npc_value_functions_amended_witness :
    get_credit_value c10_lvl3 = 30 ∧ get_credit_value c10_lvl3_boss = 60 :=
  ⟨(npc_value_functions_amended c10_lvl3).2.2.1 rfl rfl,
   (npc_value_functions_amended c10_lvl3_boss).2.2.2 rfl rfl⟩

end AIRPG
